import Mathlib

/-!
Shallow embedding of `src/api/handyApi.ts` (the `HandyApi` class): a
client-side clock synchronizer plus a playback command dispatcher for a
networked device.  JavaScript numbers are modelled as exact rationals
(`ℚ`), fallible network calls as a `FetchOutcome` sum, and parsed JSON
values as structures whose fields are `Option`s (the TypeScript casts are
unchecked, so any field may be absent at runtime).  The class's single
mutable field `serverTimeOffset` is modelled by explicit state passing
over a `HandyApi` structure, and the observable behaviour of each public
method is a pure function of its inputs and of the (decoded) response the
network delivered.
-/

namespace Handy

/-- Outcome of one `fetch`/`response.json()` round trip: either a decoded
body of type `α`, or a thrown transport/parse error (network unreachable,
malformed body). -/
inductive FetchOutcome (α : Type) where
  | success (val : α)
  | failure
deriving DecidableEq

/-- The `error` member of the uniform response envelope (`ApiResponse` in
the source).  The optional opaque `data?: unknown` member is never read by
any code path and is left out of the model. -/
structure ApiError where
  code : ℚ
  name : String
  message : String
  connected : Bool
deriving DecidableEq

/-- The uniform response envelope `{result?: T, error?: {...}}`. -/
structure ApiResponse (α : Type) where
  result : Option α
  error : Option ApiError
deriving DecidableEq

/-- A JavaScript value that the device may send either as a number or as a
string (the `number | string` fields of the source types). -/
inductive NumOrStr where
  | num (v : ℚ)
  | str (s : String)
deriving DecidableEq

/-- JavaScript truthiness of a `number | string` value: `0` and the empty
string are falsy, everything else is truthy. -/
def NumOrStr.truthy : NumOrStr → Bool
  | .num v => decide (v ≠ 0)
  | .str s => decide (s ≠ "")

/-- Truthiness of an optional value, as tested by `!!x?.field`: an absent
(`undefined`) field is falsy. -/
def jsTruthy : Option NumOrStr → Bool
  | none => false
  | some v => v.truthy

/-- Runtime shape of the `/connected` response body. -/
structure ConnectedJson where
  connected : Option Bool
deriving DecidableEq

/-- Runtime shape of the `DeviceInfo` payload (`/info`). -/
structure DeviceInfoJson where
  fw_version : Option String
  hw_model_name : Option String
  session_id : Option String
  fw_status : Option ℚ
  hw_model_no : Option ℚ
  hw_model_variant : Option ℚ
  fw_feature_flags : Option String
deriving DecidableEq

/-- Runtime shape of the `/mode` payload. -/
structure ModeJson where
  mode : Option ℚ
deriving DecidableEq

/-- Runtime shape of the `HspState` payload returned by the HSSP
endpoints. -/
structure HspStateJson where
  play_state : Option NumOrStr
  pause_on_starving : Option Bool
  points : Option ℚ
  max_points : Option ℚ
  current_point : Option ℚ
  current_time : Option ℚ
  loop : Option Bool
  playback_rate : Option ℚ
  first_point_time : Option ℚ
  last_point_time : Option ℚ
  stream_id : Option NumOrStr
  tail_point_stream_index : Option ℚ
  tail_point_stream_index_threshold : Option ℚ
deriving DecidableEq

/-- An `HspStateJson` with every field absent: the runtime value of a
response whose `result` is the empty object `{}`. -/
def emptyHspState : HspStateJson :=
  ⟨none, none, none, none, none, none, none, none, none, none, none, none, none⟩

/-- Runtime shape of the `OffsetResponse` payload (`/hstp/offset`). -/
structure OffsetJson where
  offset : Option ℚ
deriving DecidableEq

/-- Runtime shape of the `StrokeSettings` payload (`/slider/stroke`). -/
structure StrokeSettingsJson where
  min : Option ℚ
  max : Option ℚ
  min_absolute : Option ℚ
  max_absolute : Option ℚ
deriving DecidableEq

/-- Runtime shape of the `/servertime` response body. -/
structure TimeJson where
  server_time : Option ℚ
deriving DecidableEq

/-- JavaScript `Math.round`: round half toward positive infinity,
`Math.round x = ⌊x + 0.5⌋`. -/
def jsRound (q : ℚ) : ℤ := ⌊q + 1 / 2⌋

/-- The mutable/identity state of a `HandyApi` instance: the two readonly
constructor fields, the replaceable connection key, and the single mutable
field `serverTimeOffset`. -/
structure HandyApi where
  baseUrl : String
  applicationId : String
  connectionKey : String
  serverTimeOffset : ℚ
deriving DecidableEq

/-- The constructor `new HandyApi(baseUrl, applicationId, connectionKey)`;
the field initializer sets `serverTimeOffset = 0` (the `connectionKey`
parameter defaults to the empty string at the call sites that omit it). -/
def HandyApi.create (baseUrl applicationId connectionKey : String) : HandyApi :=
  ⟨baseUrl, applicationId, connectionKey, 0⟩

/-- `estimateServerTime()`: `Math.round(Date.now() + this.serverTimeOffset)`,
with the current local clock reading passed explicitly. -/
def estimateServerTime (localNow offset : ℚ) : ℤ :=
  jsRound (localNow + offset)

/-- The private `getHeaders()` result, modelled as the four headers it
sets (each request built by the `request` helper carries exactly these,
merged with any per-call extras; no call site overrides them). -/
structure RequestHeaders where
  xConnectionKey : Option String
  authorization : Option String
  contentType : Option String
  accept : Option String
deriving DecidableEq

/-- `getHeaders()`: recomputed from the instance's current
`connectionKey` and `applicationId` on every call. -/
def getHeaders (connectionKey applicationId : String) : RequestHeaders :=
  ⟨some connectionKey, some ("Bearer " ++ applicationId),
    some "application/json", some "application/json"⟩

/-- The header set of a plain `fetch(url)` with no `headers` option, as
used by `getServerTime`. -/
def noHeaders : RequestHeaders := ⟨none, none, none, none⟩

/-- One HTTP request as issued on the wire: endpoint path, method, and
the custom headers attached to it. -/
structure IssuedRequest where
  endpoint : String
  method : String
  headers : RequestHeaders
deriving DecidableEq

/-- `isConnected()`: `!!response.result?.connected`, `false` on a thrown
transport error. -/
def isConnectedResult (resp : FetchOutcome (ApiResponse ConnectedJson)) : Bool :=
  match resp with
  | .failure => false
  | .success r => (r.result.bind ConnectedJson.connected).getD false

/-- `getDeviceInfo()`: `response.result || null` (an object is always
truthy), `null` on a thrown transport error. -/
def getDeviceInfoResult (resp : FetchOutcome (ApiResponse DeviceInfoJson)) :
    Option DeviceInfoJson :=
  match resp with
  | .failure => none
  | .success r => r.result

/-- `getMode()`: `response.result?.mode ?? null`, `null` on a thrown
transport error. -/
def getModeResult (resp : FetchOutcome (ApiResponse ModeJson)) : Option ℚ :=
  match resp with
  | .failure => none
  | .success r => r.result.bind ModeJson.mode

/-- `setupScript(url)`: `!!response.result?.stream_id`, `false` on a
thrown transport error. -/
def setupScriptResult (resp : FetchOutcome (ApiResponse HspStateJson)) : Bool :=
  match resp with
  | .failure => false
  | .success r => jsTruthy (r.result.bind HspStateJson.stream_id)

/-- `play(...)`: `response.result || null`, `null` on a thrown transport
error. -/
def playResult (resp : FetchOutcome (ApiResponse HspStateJson)) : Option HspStateJson :=
  match resp with
  | .failure => none
  | .success r => r.result

/-- `stop()`: `response.result || null`, `null` on a thrown transport
error. -/
def stopResult (resp : FetchOutcome (ApiResponse HspStateJson)) : Option HspStateJson :=
  match resp with
  | .failure => none
  | .success r => r.result

/-- `syncVideoTime(...)`: `!!response.result?.stream_id`, `false` on a
thrown transport error. -/
def syncVideoTimeResult (resp : FetchOutcome (ApiResponse HspStateJson)) : Bool :=
  match resp with
  | .failure => false
  | .success r => jsTruthy (r.result.bind HspStateJson.stream_id)

/-- `getOffset()`: `response.result?.offset || 0` — the falsy check sends
an absent result, an absent field, and a literal `0` offset all to `0`;
`0` also on a thrown transport error. -/
def getOffsetResult (resp : FetchOutcome (ApiResponse OffsetJson)) : ℚ :=
  match resp with
  | .failure => 0
  | .success r =>
    match r.result.bind OffsetJson.offset with
    | none => 0
    | some v => if v = 0 then 0 else v

/-- `setOffset(offset)`: `response.result === 'ok'`, `false` on a thrown
transport error. -/
def setOffsetResult (resp : FetchOutcome (ApiResponse String)) : Bool :=
  match resp with
  | .failure => false
  | .success r => decide (r.result = some "ok")

/-- `getStrokeSettings()`: `response.result || null`, `null` on a thrown
transport error. -/
def getStrokeSettingsResult (resp : FetchOutcome (ApiResponse StrokeSettingsJson)) :
    Option StrokeSettingsJson :=
  match resp with
  | .failure => none
  | .success r => r.result

/-- `setStrokeSettings(settings)`: `response.result || null`, `null` on a
thrown transport error. -/
def setStrokeSettingsResult (resp : FetchOutcome (ApiResponse StrokeSettingsJson)) :
    Option StrokeSettingsJson :=
  match resp with
  | .failure => none
  | .success r => r.result

/-- `getServerTime()`: a plain `fetch` of `/servertime` followed by
`data.server_time || null` — an absent field and a timestamp of exactly
`0` are both mapped to `null`, as is a thrown transport error. -/
def getServerTimeResult (resp : FetchOutcome TimeJson) : Option ℚ :=
  match resp with
  | .failure => none
  | .success d =>
    match d.server_time with
    | none => none
    | some t => if t = 0 then none else some t

/-- One clock-probe sample as pushed by the `syncTime` loop:
`rtd = end - start` and `offset = (rtd / 2 + serverTime) - end`. -/
structure Sample where
  rtd : ℚ
  offset : ℚ
deriving DecidableEq

/-- One iteration of the probe loop in `syncTime`, described by the local
clock readings around the network call and the decoded `/servertime`
response body (or a thrown transport error): `t0 = Date.now()` before the
call, `t1 = Date.now()` right after the null-check passes. -/
structure Probe where
  t0 : ℚ
  t1 : ℚ
  resp : FetchOutcome TimeJson
deriving DecidableEq

/-- The body of one probe iteration: run `getServerTime`, skip the
iteration when the value is falsy (`if (!serverTime) continue` — `null`
or `0`), else push the sample with `rtd = end - start` and
`offset = (rtd / 2 + serverTime) - end`. -/
def probeToSample (p : Probe) : Option Sample :=
  match getServerTimeResult p.resp with
  | none => none
  | some serverTime =>
    if serverTime = 0 then none
    else some ⟨p.t1 - p.t0, (p.t1 - p.t0) / 2 + serverTime - p.t1⟩

/-- The successful samples collected by the probe loop of `syncTime`, in
probe order (failed probes contribute nothing and do not abort the
round). -/
def syncTimeSamples (probes : List Probe) : List Sample :=
  probes.filterMap probeToSample

/-- `samples.sort((a, b) => a.rtd - b.rtd)`: a stable ascending sort by
round-trip delay. -/
def sortSamples (samples : List Sample) : List Sample :=
  samples.mergeSort fun a b => decide (a.rtd ≤ b.rtd)

/-- The `usableSamples` selection of `syncTime`:
`samples.length > 3 ? samples.slice(0, Math.ceil(samples.length * 0.8)) : samples`,
applied after the in-place delay sort (the JavaScript `0.8` is modelled
as the exact rational `4 / 5`). -/
def usableSamples (samples : List Sample) : List Sample :=
  let sorted := sortSamples samples
  if samples.length > 3 then sorted.take ⌈(samples.length : ℚ) * (4 / 5)⌉₊
  else sorted

/-- The `reduce`-then-divide average of `syncTime`:
`usableSamples.reduce((acc, s) => acc + s.offset, 0) / usableSamples.length`. -/
def averageOffset (usable : List Sample) : ℚ :=
  (usable.foldl (fun acc s => acc + s.offset) 0) / (usable.length : ℚ)

/-- A whole `syncTime` round as a function of the probe observations and
the pre-round `serverTimeOffset`: returns the pair
(new `serverTimeOffset`, returned value).  With at least one successful
sample it stores and returns the average offset of the usable samples;
with none it leaves the field unchanged and returns it. -/
def syncTimeStep (probes : List Probe) (prev : ℚ) : ℚ × ℚ :=
  let samples := syncTimeSamples probes
  if samples.length > 0 then
    let avg := averageOffset (usableSamples samples)
    (avg, avg)
  else (prev, prev)

/-- The request body sent by `play`: `start_time` and `server_time` are
integral milliseconds (`Math.round`ed), `playback_rate` and `loop` pass
through. -/
structure PlayBody where
  start_time : ℤ
  server_time : ℤ
  playback_rate : ℚ
  loop : Bool
deriving DecidableEq

/-- `play(videoTime, playbackRate, loop)` builds its body as
`{start_time: Math.round(videoTime * 1000), server_time: this.estimateServerTime(), ...}`. -/
def playBody (videoTime playbackRate : ℚ) (loop : Bool) (localNow offset : ℚ) : PlayBody :=
  ⟨jsRound (videoTime * 1000), estimateServerTime localNow offset, playbackRate, loop⟩

/-- The request body sent by `syncVideoTime`. -/
structure SyncVideoTimeBody where
  current_time : ℤ
  server_time : ℤ
  filter : ℚ
deriving DecidableEq

/-- `syncVideoTime(videoTime, filter)` builds its body as
`{current_time: Math.round(videoTime * 1000), server_time: this.estimateServerTime(), filter}`. -/
def syncVideoTimeBody (videoTime filter localNow offset : ℚ) : SyncVideoTimeBody :=
  ⟨jsRound (videoTime * 1000), estimateServerTime localNow offset, filter⟩

/-- One invocation of a public member of `HandyApi`, together with the
inputs and decoded network responses that determine its behaviour.
`createEventSource` returns a live subscription handle (its key travels
in the URL query string, not in a fetch header), so it issues no fetch
request of its own in this model. -/
inductive OpCall where
  | setConnectionKey (key : String)
  | getConnectionKey
  | setServerTimeOffset (offset : ℚ)
  | getServerTimeOffset
  | estimateServerTime (localNow : ℚ)
  | isConnected (resp : FetchOutcome (ApiResponse ConnectedJson))
  | getDeviceInfo (resp : FetchOutcome (ApiResponse DeviceInfoJson))
  | getMode (resp : FetchOutcome (ApiResponse ModeJson))
  | setupScript (scriptUrl : String) (resp : FetchOutcome (ApiResponse HspStateJson))
  | play (videoTime playbackRate : ℚ) (loop : Bool) (localNow : ℚ)
      (resp : FetchOutcome (ApiResponse HspStateJson))
  | stop (resp : FetchOutcome (ApiResponse HspStateJson))
  | syncVideoTime (videoTime filter localNow : ℚ)
      (resp : FetchOutcome (ApiResponse HspStateJson))
  | getOffset (resp : FetchOutcome (ApiResponse OffsetJson))
  | setOffset (offset : ℚ) (resp : FetchOutcome (ApiResponse String))
  | getStrokeSettings (resp : FetchOutcome (ApiResponse StrokeSettingsJson))
  | setStrokeSettings (settingsMin settingsMax : ℚ)
      (resp : FetchOutcome (ApiResponse StrokeSettingsJson))
  | getServerTime (resp : FetchOutcome TimeJson)
  | syncTime (probes : List Probe)
  | createEventSource

/-- State transition of one public call.  Only three members ever write
an instance field: `setConnectionKey`, `setServerTimeOffset`, and the
assignment `this.serverTimeOffset = averageOffset` inside a `syncTime`
round that collected at least one sample. -/
def step (api : HandyApi) : OpCall → HandyApi
  | .setConnectionKey key => { api with connectionKey := key }
  | .setServerTimeOffset v => { api with serverTimeOffset := v }
  | .syncTime probes =>
    { api with serverTimeOffset := (syncTimeStep probes api.serverTimeOffset).1 }
  | _ => api

/-- Whether a call is one of the two that may write `serverTimeOffset`:
the raw setter, or a sync round. -/
def OpCall.writesOffset : OpCall → Bool
  | .setServerTimeOffset _ => true
  | .syncTime _ => true
  | _ => false

/-- The HTTP requests a call puts on the wire, given the instance's
current `connectionKey` and `applicationId`.  Every endpoint reached
through the private `request` helper carries `getHeaders()`; the
`/servertime` probe in `getServerTime` (and hence each probe of
`syncTime`) is a bare `fetch` with no headers at all. -/
def issuedRequests (op : OpCall) (connectionKey applicationId : String) :
    List IssuedRequest :=
  match op with
  | .setConnectionKey _ => []
  | .getConnectionKey => []
  | .setServerTimeOffset _ => []
  | .getServerTimeOffset => []
  | .estimateServerTime _ => []
  | .isConnected _ => [⟨"/connected", "GET", getHeaders connectionKey applicationId⟩]
  | .getDeviceInfo _ => [⟨"/info", "GET", getHeaders connectionKey applicationId⟩]
  | .getMode _ => [⟨"/mode", "GET", getHeaders connectionKey applicationId⟩]
  | .setupScript _ _ => [⟨"/hssp/setup", "PUT", getHeaders connectionKey applicationId⟩]
  | .play _ _ _ _ _ => [⟨"/hssp/play", "PUT", getHeaders connectionKey applicationId⟩]
  | .stop _ => [⟨"/hssp/stop", "PUT", getHeaders connectionKey applicationId⟩]
  | .syncVideoTime _ _ _ _ =>
    [⟨"/hssp/synctime", "PUT", getHeaders connectionKey applicationId⟩]
  | .getOffset _ => [⟨"/hstp/offset", "GET", getHeaders connectionKey applicationId⟩]
  | .setOffset _ _ => [⟨"/hstp/offset", "PUT", getHeaders connectionKey applicationId⟩]
  | .getStrokeSettings _ =>
    [⟨"/slider/stroke", "GET", getHeaders connectionKey applicationId⟩]
  | .setStrokeSettings _ _ _ =>
    [⟨"/slider/stroke", "PUT", getHeaders connectionKey applicationId⟩]
  | .getServerTime _ => [⟨"/servertime", "GET", noHeaders⟩]
  | .syncTime probes => probes.map fun _ => ⟨"/servertime", "GET", noHeaders⟩
  | .createEventSource => []

/-- The count the spec prescribes for the usable-sample selection:
`ceil(n * 0.8)` of the `n` successes when `n > 3`, else all `n`.
Modelled from the spec for comparison with `usableSamples`. -/
def specSelectCount (n : ℕ) : ℕ :=
  if n > 3 then ⌈(n : ℚ) * (4 / 5)⌉₊ else n

/-- The spec's description of a response that "carries a non-empty
stream identifier": a successfully parsed envelope whose `result` field
is present and holds a truthy `stream_id`.  Modelled from the spec for
comparison with `setupScriptResult`/`syncVideoTimeResult`. -/
def respHasTruthyStreamId (resp : FetchOutcome (ApiResponse HspStateJson)) : Prop :=
  ∃ (r : HspStateJson) (e : Option ApiError) (sid : NumOrStr),
    resp = FetchOutcome.success ⟨some r, e⟩ ∧
    r.stream_id = some sid ∧ sid.truthy = true

/-- What the spec asserts about one sync round with at least one
successful sample, phrased over the embedded definitions: the samples are
rearranged ascending by round-trip delay, the selected subset is the
`specSelectCount`-prefix of that rearrangement (all samples when at most
3 succeeded, and exactly 8 of 10), and the round stores and returns the
arithmetic mean of the selected samples' offsets. -/
def syncRoundSpec (probes : List Probe) (prev : ℚ) : Prop :=
  let s := syncTimeSamples probes
  let sorted := sortSamples s
  let selected := usableSamples s
  let mean := ((selected.map Sample.offset).sum / (selected.length : ℚ))
  sorted.Perm s ∧
  List.Pairwise (fun a b => a.rtd ≤ b.rtd) sorted ∧
  selected = sorted.take (specSelectCount s.length) ∧
  (s.length ≤ 3 → selected = sorted) ∧
  (s.length = 10 → selected.length = 8) ∧
  syncTimeStep probes prev = (mean, mean)

/-- A ten-probe round realizing the spec's worked example: round-trip
delays `[50, 10, 20, 15, 12, 11, 13, 14, 16, 18]` (each probe starts at
local time `0` and completes at `t1 = delay`), every probe answered with
remote timestamp `1000`. -/
def probes10 : List Probe :=
  [⟨0, 50, .success ⟨some 1000⟩⟩,
   ⟨0, 10, .success ⟨some 1000⟩⟩,
   ⟨0, 20, .success ⟨some 1000⟩⟩,
   ⟨0, 15, .success ⟨some 1000⟩⟩,
   ⟨0, 12, .success ⟨some 1000⟩⟩,
   ⟨0, 11, .success ⟨some 1000⟩⟩,
   ⟨0, 13, .success ⟨some 1000⟩⟩,
   ⟨0, 14, .success ⟨some 1000⟩⟩,
   ⟨0, 16, .success ⟨some 1000⟩⟩,
   ⟨0, 18, .success ⟨some 1000⟩⟩]

/-- A round in which every probe fails: one thrown transport error, one
body with the timestamp field absent, one body with timestamp `0`. -/
def probesAllFail : List Probe :=
  [⟨0, 1, .failure⟩, ⟨2, 3, .success ⟨none⟩⟩, ⟨4, 5, .success ⟨some 0⟩⟩]

end Handy

namespace Handy

/-! ### Helper lemmas -/

/-- The probe-order sample list of a JavaScript `reduce` sum: folding
`acc + s.offset` from `a` adds the offset sum to `a`. -/
lemma foldl_add_offset (l : List Sample) (a : ℚ) :
    l.foldl (fun acc s => acc + s.offset) a = a + (l.map Sample.offset).sum := by
  induction l generalizing a with
  | nil => simp
  | cons x xs ih => simp [ih, add_assoc]

/-- `averageOffset` is the arithmetic mean of the offsets. -/
lemma averageOffset_eq (l : List Sample) :
    averageOffset l = (l.map Sample.offset).sum / (l.length : ℚ) := by
  unfold averageOffset
  rw [foldl_add_offset, zero_add]

/-- `getServerTime` never reports a zero timestamp (the falsy check maps
it to `null`). -/
lemma getServerTimeResult_ne_zero {r : FetchOutcome TimeJson} {t : ℚ}
    (h : getServerTimeResult r = some t) : t ≠ 0 := by
  cases r with
  | failure => simp [getServerTimeResult] at h
  | success d =>
    cases hd : d.server_time with
    | none => simp [getServerTimeResult, hd] at h
    | some v =>
      simp only [getServerTimeResult, hd] at h
      by_cases hv : v = 0
      · simp [hv] at h
      · simp [hv] at h
        exact h ▸ hv

/-- Sorting samples permutes them. -/
lemma sortSamples_perm (s : List Sample) : (sortSamples s).Perm s :=
  List.mergeSort_perm s _

/-- Sorting preserves the number of samples. -/
lemma length_sortSamples (s : List Sample) : (sortSamples s).length = s.length :=
  (sortSamples_perm s).length_eq

/-- The sample sort is ascending in round-trip delay. -/
lemma sortSamples_sorted (s : List Sample) :
    List.Pairwise (fun a b => a.rtd ≤ b.rtd) (sortSamples s) := by
  have h : List.Pairwise
      (fun a b : Sample => (fun a b : Sample => decide (a.rtd ≤ b.rtd)) a b = true)
      (sortSamples s) := by
    unfold sortSamples
    refine List.sorted_mergeSort ?_ ?_ s
    · intro a b c hab hbc
      simp only [decide_eq_true_eq] at hab hbc ⊢
      exact le_trans hab hbc
    · intro a b
      simp only [Bool.or_eq_true, decide_eq_true_eq]
      exact le_total _ _
  exact h.imp (by intro a b hab; simpa using hab)

/-- `Math.round` of an exact integer is that integer. -/
lemma jsRound_intCast (m : ℤ) : jsRound (m : ℚ) = m := by
  unfold jsRound
  rw [Int.floor_eq_iff]
  norm_num

/-- `Math.round` lands within half a unit of its argument. -/
lemma abs_jsRound_sub_le (q : ℚ) : |(jsRound q : ℚ) - q| ≤ 1 / 2 := by
  unfold jsRound
  rw [abs_le]
  constructor
  · have h := Int.lt_floor_add_one (q + 1 / 2)
    push_cast at h ⊢
    linarith
  · have h := Int.floor_le (q + 1 / 2)
    push_cast at h ⊢
    linarith

/-- `Math.round` is monotone. -/
lemma jsRound_mono {q r : ℚ} (h : q ≤ r) : jsRound q ≤ jsRound r := by
  unfold jsRound
  exact Int.floor_le_floor (by linarith)

/-! ### Claim theorems -/

/-- C1: in a sync round with at least one successful sample, `syncTime`
sorts the samples ascending by round-trip delay, selects the
`ceil(n * 0.8)` lowest-delay samples when `n > 3` and all of them when
`n ≤ 3` (so exactly 8 of 10), computes the arithmetic mean of the
selected offsets, stores it as the new `serverTimeOffset`, and returns
it. -/
theorem syncTime_sorts_trims_averages (probes : List Probe) (prev : ℚ)
    (h : 1 ≤ (syncTimeSamples probes).length) : syncRoundSpec probes prev := by
  unfold syncRoundSpec
  set s := syncTimeSamples probes with hs
  have hperm := sortSamples_perm s
  have hlen := length_sortSamples s
  have hsel : usableSamples s = (sortSamples s).take (specSelectCount s.length) := by
    unfold usableSamples specSelectCount
    by_cases h3 : s.length > 3
    · simp [h3]
    · simp only [h3, if_false]
      rw [List.take_of_length_le (le_of_eq hlen)]
  refine ⟨hperm, sortSamples_sorted s, hsel, ?_, ?_, ?_⟩
  · intro hle
    rw [hsel]
    unfold specSelectCount
    rw [if_neg (by omega)]
    exact List.take_of_length_le (le_of_eq hlen)
  · intro h10
    rw [hsel, List.length_take, hlen, h10]
    unfold specSelectCount
    rw [if_pos (by norm_num)]
    rw [show ((10 : ℕ) : ℚ) * (4 / 5) = 8 by norm_num]
    norm_num
  · unfold syncTimeStep
    rw [← hs, if_pos (by omega)]
    rw [averageOffset_eq]

/-- C1 witness: the spec's ten-sample example round, with delays
`[50, 10, 20, 15, 12, 11, 13, 14, 16, 18]`. -/
theorem syncTime_sorts_trims_averages_witness :
    1 ≤ (syncTimeSamples probes10).length ∧ syncRoundSpec probes10 5 :=
  ⟨by decide, syncTime_sorts_trims_averages probes10 5 (by decide)⟩

/-- C2: a round in which zero probes succeed returns the pre-round
`serverTimeOffset` and stores it back unchanged; a round with at least
one success stores and returns a value computed from the successful
samples alone (the pre-round offset does not enter it). -/
theorem syncTime_zero_success_frame (probes : List Probe) (prev : ℚ) :
    (syncTimeSamples probes = [] → syncTimeStep probes prev = (prev, prev)) ∧
    (syncTimeSamples probes ≠ [] →
      syncTimeStep probes prev =
        (averageOffset (usableSamples (syncTimeSamples probes)),
         averageOffset (usableSamples (syncTimeSamples probes)))) := by
  constructor
  · intro hnil
    unfold syncTimeStep
    rw [hnil]
    simp
  · intro hne
    have hpos : (syncTimeSamples probes).length > 0 := List.length_pos.mpr hne
    unfold syncTimeStep
    rw [if_pos hpos]

/-- C2 witness: a round whose three probes all fail (thrown error,
absent field, zero timestamp) hands back the prior offset `7`. -/
theorem syncTime_zero_success_frame_witness :
    syncTimeSamples probesAllFail = [] ∧ syncTimeStep probesAllFail 7 = (7, 7) :=
  ⟨by decide, (syncTime_zero_success_frame probesAllFail 7).1 (by decide)⟩

/-- C3: a successful probe contributes the sample with round-trip delay
`t1 - t0` and offset `(remoteTime + (t1 - t0) / 2) - t1`; a probe whose
time request threw or produced no usable timestamp contributes no sample
and leaves the rest of the round intact. -/
theorem probe_sample_estimator (p : Probe) :
    (∀ t : ℚ, getServerTimeResult p.resp = some t →
      probeToSample p = some ⟨p.t1 - p.t0, (t + (p.t1 - p.t0) / 2) - p.t1⟩) ∧
    (p.resp = FetchOutcome.failure → probeToSample p = none) ∧
    (getServerTimeResult p.resp = none → probeToSample p = none) ∧
    (probeToSample p = none →
      ∀ rest : List Probe, syncTimeSamples (p :: rest) = syncTimeSamples rest) := by
  refine ⟨?_, ?_, ?_, ?_⟩
  · intro t ht
    have htne : t ≠ 0 := getServerTimeResult_ne_zero ht
    unfold probeToSample
    rw [ht]
    show (if t = 0 then none
        else some (Sample.mk (p.t1 - p.t0) ((p.t1 - p.t0) / 2 + t - p.t1))) =
      some (Sample.mk (p.t1 - p.t0) ((t + (p.t1 - p.t0) / 2) - p.t1))
    rw [if_neg htne]
    congr 1
    simp only [Sample.mk.injEq, true_and]
    ring
  · intro hf
    unfold probeToSample
    rw [hf]
    rfl
  · intro hn
    unfold probeToSample
    rw [hn]
  · intro hnone rest
    unfold syncTimeSamples
    rw [List.filterMap_cons, hnone]

/-- C3 witness: a probe sent at local time `0`, answered with remote
timestamp `1000`, received at local time `10`. -/
theorem probe_sample_estimator_witness :
    getServerTimeResult (Probe.mk 0 10 (.success ⟨some 1000⟩)).resp = some 1000 ∧
    probeToSample ⟨0, 10, .success ⟨some 1000⟩⟩ =
      some ⟨(10 : ℚ) - 0, (1000 + ((10 : ℚ) - 0) / 2) - 10⟩ :=
  ⟨by decide, (probe_sample_estimator ⟨0, 10, .success ⟨some 1000⟩⟩).1 1000 (by decide)⟩

/-- C4: `estimateServerTime` is `localNow + serverTimeOffset` rounded to
an integral timestamp no more than half a unit away, and with the offset
held fixed it is monotonically non-decreasing in the local time. -/
theorem estimateServerTime_rounds_monotone (localNow offset localNow2 : ℚ)
    (h : localNow ≤ localNow2) :
    |(estimateServerTime localNow offset : ℚ) - (localNow + offset)| ≤ 1 / 2 ∧
    estimateServerTime localNow offset ≤ estimateServerTime localNow2 offset := by
  constructor
  · exact abs_jsRound_sub_le (localNow + offset)
  · exact jsRound_mono (by linarith)

/-- C4 witness: local clock advancing from `0` to `1` with offset `0`. -/
theorem estimateServerTime_rounds_monotone_witness :
    (0 : ℚ) ≤ 1 ∧
    (|(estimateServerTime 0 0 : ℚ) - ((0 : ℚ) + 0)| ≤ 1 / 2 ∧
      estimateServerTime 0 0 ≤ estimateServerTime 1 0) :=
  ⟨by decide, estimateServerTime_rounds_monotone 0 0 1 (by decide)⟩

/-- C5: `play` sends `start_time = round(videoTime * 1000)` (so a video
time that is an exact number of milliseconds is sent verbatim, `1.234`
as `1234`) together with the instantaneous `estimateServerTime()` as
`server_time`, and returns the reported snapshot or `null` on failure;
`syncVideoTime` likewise sends `current_time = round(videoTime * 1000)`
(`10.0` as `10000`), the instantaneous estimate, and the filter
coefficient. -/
theorem play_sync_send_ms_and_estimate :
    (∀ (m : ℤ) (playbackRate localNow offset : ℚ) (loop : Bool),
      (playBody ((m : ℚ) / 1000) playbackRate loop localNow offset).start_time = m ∧
      (playBody ((m : ℚ) / 1000) playbackRate loop localNow offset).server_time =
        estimateServerTime localNow offset) ∧
    (playBody ((1234 : ℚ) / 1000) 1 false 0 0).start_time = 1234 ∧
    (∀ (st : HspStateJson) (e : Option ApiError),
      playResult (FetchOutcome.success ⟨some st, e⟩) = some st) ∧
    (∀ e : Option ApiError, playResult (FetchOutcome.success ⟨none, e⟩) = none) ∧
    playResult FetchOutcome.failure = none ∧
    (∀ (m : ℤ) (filter localNow offset : ℚ),
      (syncVideoTimeBody ((m : ℚ) / 1000) filter localNow offset).current_time = m ∧
      (syncVideoTimeBody ((m : ℚ) / 1000) filter localNow offset).server_time =
        estimateServerTime localNow offset ∧
      (syncVideoTimeBody ((m : ℚ) / 1000) filter localNow offset).filter = filter) ∧
    (syncVideoTimeBody 10 (1 / 2) 0 0).current_time = 10000 := by
  refine ⟨?_, ?_, fun st e => rfl, fun e => rfl, rfl, ?_, ?_⟩
  · intro m playbackRate localNow offset loop
    refine ⟨?_, rfl⟩
    show jsRound ((m : ℚ) / 1000 * 1000) = m
    rw [show (m : ℚ) / 1000 * 1000 = (m : ℚ) by ring]
    exact jsRound_intCast m
  · show jsRound ((1234 : ℚ) / 1000 * 1000) = 1234
    rw [show (1234 : ℚ) / 1000 * 1000 = ((1234 : ℤ) : ℚ) by norm_num]
    exact jsRound_intCast 1234
  · intro m filter localNow offset
    refine ⟨?_, rfl, rfl⟩
    show jsRound ((m : ℚ) / 1000 * 1000) = m
    rw [show (m : ℚ) / 1000 * 1000 = (m : ℚ) by ring]
    exact jsRound_intCast m
  · show jsRound ((10 : ℚ) * 1000) = 10000
    rw [show (10 : ℚ) * 1000 = ((10000 : ℤ) : ℚ) by norm_num]
    exact jsRound_intCast 10000

/-- Helper for C6: `setupScript` reports `true` exactly on a parsed
envelope whose `result` holds a truthy `stream_id`. -/
lemma setupScriptResult_iff (resp : FetchOutcome (ApiResponse HspStateJson)) :
    setupScriptResult resp = true ↔ respHasTruthyStreamId resp := by
  constructor
  · intro h
    cases resp with
    | failure => simp [setupScriptResult] at h
    | success r =>
      obtain ⟨res, err⟩ := r
      cases res with
      | none => simp [setupScriptResult, jsTruthy] at h
      | some st =>
        cases hsid : st.stream_id with
        | none => simp [setupScriptResult, jsTruthy, hsid] at h
        | some sid =>
          refine ⟨st, err, sid, rfl, hsid, ?_⟩
          simpa [setupScriptResult, jsTruthy, hsid] using h
  · rintro ⟨st, e, sid, rfl, hsid, htr⟩
    simp [setupScriptResult, jsTruthy, hsid, htr]

/-- C6: the success flags of `setupScript` and `syncVideoTime` are `true`
iff the response carries a truthy stream identifier; a `{result: {}}`
response and a thrown transport error both yield `false`. -/
theorem stream_flags_iff_stream_id :
    (∀ resp : FetchOutcome (ApiResponse HspStateJson),
      setupScriptResult resp = true ↔ respHasTruthyStreamId resp) ∧
    (∀ resp : FetchOutcome (ApiResponse HspStateJson),
      syncVideoTimeResult resp = true ↔ respHasTruthyStreamId resp) ∧
    setupScriptResult (FetchOutcome.success ⟨some emptyHspState, none⟩) = false ∧
    setupScriptResult FetchOutcome.failure = false ∧
    syncVideoTimeResult (FetchOutcome.success ⟨some emptyHspState, none⟩) = false ∧
    syncVideoTimeResult FetchOutcome.failure = false := by
  have hsync : ∀ resp, syncVideoTimeResult resp = setupScriptResult resp := by
    intro resp
    cases resp <;> rfl
  exact ⟨setupScriptResult_iff,
    fun resp => (hsync resp) ▸ setupScriptResult_iff resp,
    rfl, rfl, rfl, rfl⟩

/-- C7: every public operation maps a thrown transport/parse failure to
its neutral value (`false`, `null`, `0`, or an unchanged offset) instead
of raising, and a well-formed envelope that carries an error but no
`result` resolves the read operations to `null` (`false` for the boolean
one). -/
theorem public_ops_degrade_neutrally :
    (∀ probes : List Probe, (∀ p ∈ probes, probeToSample p = none) →
      ∀ prev : ℚ, syncTimeStep probes prev = (prev, prev)) ∧
    isConnectedResult FetchOutcome.failure = false ∧
    getDeviceInfoResult FetchOutcome.failure = none ∧
    getModeResult FetchOutcome.failure = none ∧
    setupScriptResult FetchOutcome.failure = false ∧
    playResult FetchOutcome.failure = none ∧
    stopResult FetchOutcome.failure = none ∧
    syncVideoTimeResult FetchOutcome.failure = false ∧
    getOffsetResult FetchOutcome.failure = 0 ∧
    setOffsetResult FetchOutcome.failure = false ∧
    getStrokeSettingsResult FetchOutcome.failure = none ∧
    setStrokeSettingsResult FetchOutcome.failure = none ∧
    getServerTimeResult FetchOutcome.failure = none ∧
    (∀ e : ApiError,
      getDeviceInfoResult (FetchOutcome.success ⟨none, some e⟩) = none ∧
      getModeResult (FetchOutcome.success ⟨none, some e⟩) = none ∧
      getStrokeSettingsResult (FetchOutcome.success ⟨none, some e⟩) = none ∧
      isConnectedResult (FetchOutcome.success ⟨none, some e⟩) = false ∧
      playResult (FetchOutcome.success ⟨none, some e⟩) = none ∧
      stopResult (FetchOutcome.success ⟨none, some e⟩) = none) := by
  refine ⟨?_, rfl, rfl, rfl, rfl, rfl, rfl, rfl, rfl, rfl, rfl, rfl, rfl,
    fun e => ⟨rfl, rfl, rfl, rfl, rfl, rfl⟩⟩
  intro probes hall prev
  have hnil : syncTimeSamples probes = [] := by
    unfold syncTimeSamples
    exact List.filterMap_eq_nil_iff.mpr hall
  unfold syncTimeStep
  rw [hnil]
  simp

/-- C7 witness: a round of three failing probes (thrown error, absent
field, zero timestamp) leaves the offset `3` untouched. -/
theorem public_ops_degrade_neutrally_witness :
    (∀ p ∈ probesAllFail, probeToSample p = none) ∧
    syncTimeStep probesAllFail 3 = (3, 3) :=
  ⟨by decide, public_ops_degrade_neutrally.1 probesAllFail (by decide) 3⟩

/-- C8 counterexample: the `/servertime` fetch issued by `getServerTime`
carries no connection-key header and no bearer credential header at all,
so not every request of the component carries them. -/
theorem servertime_fetch_lacks_identity_headers :
    issuedRequests (OpCall.getServerTime FetchOutcome.failure) "ck0" "app0" =
      [⟨"/servertime", "GET", noHeaders⟩] ∧
    noHeaders.xConnectionKey = none ∧ noHeaders.authorization = none :=
  ⟨rfl, rfl, rfl⟩

/-- C8 (amended): every request issued through the private `request`
helper carries the connection-key header and the bearer credential
header, built afresh from the identity passed at call time (so a key or
credential change takes effect on the very next such request); the only
exceptions are the bare `/servertime` fetches of `getServerTime` and the
`syncTime` probes, which carry no headers. -/
theorem request_helper_headers_recomputed (op : OpCall) (ck app : String)
    (r : IssuedRequest) (h : r ∈ issuedRequests op ck app) :
    (r.endpoint = "/servertime" ∧ r.headers = noHeaders) ∨
    (r.headers = getHeaders ck app ∧ r.headers.xConnectionKey = some ck ∧
      r.headers.authorization = some ("Bearer " ++ app)) := by
  cases op <;>
    simp only [issuedRequests, List.mem_singleton, List.mem_map,
      List.not_mem_nil] at h
  all_goals try (subst h; right; exact ⟨rfl, rfl, rfl⟩)
  all_goals try (subst h; left; exact ⟨rfl, rfl⟩)
  obtain ⟨p, hp, rfl⟩ := h
  left
  exact ⟨rfl, rfl⟩

/-- C8 witness: the `/info` request of `getDeviceInfo` under key `"k"`
and credential `"a"`. -/
theorem request_helper_headers_recomputed_witness :
    ((⟨"/info", "GET", getHeaders "k" "a"⟩ : IssuedRequest) ∈
      issuedRequests (OpCall.getDeviceInfo FetchOutcome.failure) "k" "a") ∧
    (((⟨"/info", "GET", getHeaders "k" "a"⟩ : IssuedRequest).endpoint = "/servertime" ∧
      (⟨"/info", "GET", getHeaders "k" "a"⟩ : IssuedRequest).headers = noHeaders) ∨
     ((⟨"/info", "GET", getHeaders "k" "a"⟩ : IssuedRequest).headers = getHeaders "k" "a" ∧
      (⟨"/info", "GET", getHeaders "k" "a"⟩ : IssuedRequest).headers.xConnectionKey =
        some "k" ∧
      (⟨"/info", "GET", getHeaders "k" "a"⟩ : IssuedRequest).headers.authorization =
        some ("Bearer " ++ "a"))) :=
  ⟨by decide, request_helper_headers_recomputed
    (OpCall.getDeviceInfo FetchOutcome.failure) "k" "a"
    ⟨"/info", "GET", getHeaders "k" "a"⟩ (by decide)⟩

/-- C9 counterexample: the public `setServerTimeOffset` call is not
`syncTime` and yet changes the stored `serverTimeOffset`. -/
theorem setServerTimeOffset_mutates_state :
    (step (HandyApi.create "http://h" "app" "")
        (OpCall.setServerTimeOffset 5)).serverTimeOffset ≠
      (HandyApi.create "http://h" "app" "").serverTimeOffset := by
  decide

/-- C9 (amended): the stored offset defaults to `0` and is mutated only
by a completed sync round or by an explicit `setServerTimeOffset` call;
every other public operation leaves the field unchanged. -/
theorem serverTimeOffset_frame :
    (∀ baseUrl applicationId connectionKey : String,
      (HandyApi.create baseUrl applicationId connectionKey).serverTimeOffset = 0) ∧
    (∀ (api : HandyApi) (op : OpCall), op.writesOffset = false →
      (step api op).serverTimeOffset = api.serverTimeOffset) := by
  refine ⟨fun _ _ _ => rfl, ?_⟩
  intro api op h
  cases op
  case setServerTimeOffset v => simp [OpCall.writesOffset] at h
  case syncTime probes => simp [OpCall.writesOffset] at h
  all_goals rfl

/-- C9 witness: a failed `stop` call leaves the offset of a fresh
instance unchanged. -/
theorem serverTimeOffset_frame_witness :
    (OpCall.stop FetchOutcome.failure).writesOffset = false ∧
    (step (HandyApi.create "http://h" "app" "")
        (OpCall.stop FetchOutcome.failure)).serverTimeOffset =
      (HandyApi.create "http://h" "app" "").serverTimeOffset :=
  ⟨rfl, serverTimeOffset_frame.2 _ _ rfl⟩

/-- C10: falsy-but-present payload values are conflated with failure: a
`/servertime` body whose timestamp is exactly `0` makes `getServerTime`
return `null` and the probe contribute no sample, and `getOffset`
resolves to `0` alike for a reported offset of `0`, a resultless
envelope, and a thrown transport error. -/
theorem falsy_values_conflated_with_failure :
    (∀ d : TimeJson, d.server_time = some 0 →
      getServerTimeResult (FetchOutcome.success d) = none) ∧
    (∀ (p : Probe) (d : TimeJson), p.resp = FetchOutcome.success d →
      d.server_time = some 0 → probeToSample p = none) ∧
    (∀ e : Option ApiError,
      getOffsetResult (FetchOutcome.success ⟨some ⟨some 0⟩, e⟩) = 0) ∧
    (∀ e : Option ApiError, getOffsetResult (FetchOutcome.success ⟨none, e⟩) = 0) ∧
    getOffsetResult FetchOutcome.failure = 0 := by
  refine ⟨?_, ?_, ?_, fun e => rfl, rfl⟩
  · intro d hd
    simp [getServerTimeResult, hd]
  · intro p d hp hd
    have hnone : getServerTimeResult p.resp = none := by
      rw [hp]
      simp [getServerTimeResult, hd]
    unfold probeToSample
    rw [hnone]
  · intro e
    simp [getOffsetResult]

/-- C10 witness: a decoded `/servertime` body whose timestamp field is
exactly `0`. -/
theorem falsy_values_conflated_with_failure_witness :
    (⟨some 0⟩ : TimeJson).server_time = some 0 ∧
    getServerTimeResult (FetchOutcome.success ⟨some 0⟩) = none :=
  ⟨rfl, falsy_values_conflated_with_failure.1 ⟨some 0⟩ rfl⟩

end Handy
